import Mathlib

/-!
Shallow embedding of the web-scraper service core: the freemium quota gate
(src/middleware/freemium.ts), the POST /scrape Express handler (src/server.ts)
and the Simplescraper extraction wrapper (src/services/simplescraper.ts).
External collaborators (the HTTP stack, axios, the ethers signer and hash
primitives) enter as explicit parameters; everything the repository itself
computes is translated directly from the TypeScript source.
-/

namespace WebScraper

/-! ## Models of the JavaScript string primitives used by the source -/

/-- Model of JS `String.prototype.toLowerCase` restricted to ASCII letters,
applied characterwise. -/
def jsLowerChar (c : Char) : Char :=
  if 65 ≤ c.toNat ∧ c.toNat ≤ 90 then Char.ofNat (c.toNat + 32) else c

/-- Model of JS `s.toLowerCase()`. -/
def jsToLower (s : String) : String := String.mk (s.data.map jsLowerChar)

/-- Whitespace test used by the model of JS `s.trim()`. -/
def jsWhitespace (c : Char) : Bool := c = ' ' || c = '\t' || c = '\n' || c = '\r'

/-- Model of JS `s.trim()`: strip leading and trailing whitespace. -/
def jsTrim (s : String) : String :=
  String.mk (((s.data.dropWhile jsWhitespace).reverse.dropWhile jsWhitespace).reverse)

/-- Model of the JS `a || b` idiom on strings: the empty string is falsy. -/
def jsOr (a b : String) : String := if a = "" then b else a

/-- Model of `a || b` where `a` may be `undefined` (absent). -/
def jsOrOpt (a : Option String) (b : String) : String :=
  match a with
  | some s => jsOr s b
  | none => b

/-- Model of the JS `a || b` idiom where both sides are string-or-null
(`(body.clientAddress?.trim() ?? null) || (header?.trim() ?? null)` in
server.ts): a null or empty left side falls through to the right side. -/
def jsOrNullStr (a b : Option String) : Option String :=
  match a with
  | some s => if s = "" then b else some s
  | none => b

/-! ## Usage quota store (middleware/freemium.ts) -/

/-- The in-process `walletUsage : Map<string, number>` store, embedded as an
association list from caller identity to consumed-call count. -/
abbrev QuotaStore := List (String × Nat)

/-- Model of `walletUsage.get(callerId)`. -/
def lookupCount : QuotaStore → String → Option Nat
  | [], _ => none
  | (k, v) :: rest, key => if k = key then some v else lookupCount rest key

/-- Model of `walletUsage.set(callerId, n)`: replace the binding if present,
otherwise append it. -/
def setCount : QuotaStore → String → Nat → QuotaStore
  | [], key, v => [(key, v)]
  | (k, w) :: rest, key, v =>
    if k = key then (key, v) :: rest else (k, w) :: setCount rest key v

/-- Consumed count of an identity, `walletUsage.get(callerId) ?? 0`. -/
def countOf (store : QuotaStore) (key : String) : Nat :=
  (lookupCount store key).getD 0

/-- The `FREE_TIER_LIMIT` constant of middleware/freemium.ts. -/
def FREE_TIER_LIMIT : Nat := 2

/-! ## Identity resolution and the freemium gate (middleware/freemium.ts) -/

/-- Request metadata the gate reads: the `x-wallet-address` header, `req.ip`
and `req.socket.remoteAddress`. -/
structure GateInput where
  headerWallet : Option String
  ip : Option String
  remoteAddress : Option String

/-- Lines 32 and 35 of the gate:
`wallet = ((headers["x-wallet-address"] ?? "").toLowerCase().trim())` and
`callerId = wallet || req.ip || req.socket.remoteAddress || "unknown"`. -/
def resolveCallerId (g : GateInput) : String :=
  let wallet := jsTrim (jsToLower (g.headerWallet.getD ""))
  jsOr wallet (jsOrOpt g.ip (jsOrOpt g.remoteAddress "unknown"))

/-- The quota check-and-consume step inlined in the gate (lines 37 to 46):
read the count, and below the limit grant, increment and report the remaining
allowance; at or above the limit deny, leaving the store untouched (the denial
branch exposes no free-tier fields, rendered here as remaining 0). -/
def checkAndConsume (store : QuotaStore) (callerId : String) :
    (Bool × Nat) × QuotaStore :=
  let used := countOf store callerId
  if used < FREE_TIER_LIMIT then
    ((true, FREE_TIER_LIMIT - used - 1), setCount store callerId (used + 1))
  else
    ((false, 0), store)

/-- Where the gate sends a request: straight to the scrape handler (`next()`)
carrying `freeTierRemaining`, or to the x402 payment middleware. -/
inductive Route where
  | handler (freeTierRemaining : Nat)
  | adapter
deriving DecidableEq, Repr

/-- One invocation of `freemiumGate`: resolve the caller identity, run the
check-and-consume step, and route to the handler on grant or the payment
middleware on denial. The body is synchronous JavaScript with no suspension
point between the read and the write, so each invocation is one atomic step
of the event loop. -/
def freemiumGate (store : QuotaStore) (g : GateInput) : Route × QuotaStore :=
  let callerId := resolveCallerId g
  match checkAndConsume store callerId with
  | ((true, remaining), store2) => (Route.handler remaining, store2)
  | ((false, _), store2) => (Route.adapter, store2)

/-- The store after `n` successive gate calls with the same request metadata,
starting from the empty (fresh-process) store. -/
def runGateCalls (g : GateInput) : Nat → QuotaStore
  | 0 => []
  | n + 1 => (freemiumGate (runGateCalls g n) g).2

/-- Route taken by call number `n + 1` of a process lifetime. -/
def nthRoute (g : GateInput) (n : Nat) : Route :=
  (freemiumGate (runGateCalls g n) g).1

/-- Execution of one schedule of gate invocations for a single identity: the
list holds the request labels in arrival order (each invocation is atomic, see
`freemiumGate`), and the result is the final store plus the number of granted
requests. -/
def runSched (g : GateInput) : List Nat → QuotaStore × Nat
  | [] => ([], 0)
  | _ :: rest =>
    let p := runSched g rest
    match freemiumGate p.1 g with
    | (Route.handler _, store2) => (store2, p.2 + 1)
    | (Route.adapter, store2) => (store2, p.2)

/-! ## Basic store lemmas -/

theorem lookupCount_setCount_self (store : QuotaStore) (key : String) (v : Nat) :
    lookupCount (setCount store key v) key = some v := by
  induction store with
  | nil => simp [setCount, lookupCount]
  | cons hd tl ih =>
    obtain ⟨k, w⟩ := hd
    by_cases h : k = key
    · simp [setCount, lookupCount, h]
    · simp [setCount, lookupCount, h, ih]

theorem lookupCount_setCount_other (store : QuotaStore) (key other : String) (v : Nat)
    (h : other ≠ key) :
    lookupCount (setCount store key v) other = lookupCount store other := by
  have h2 : ¬ key = other := fun hh => h hh.symm
  induction store with
  | nil => simp [setCount, lookupCount, h2]
  | cons hd tl ih =>
    obtain ⟨k, w⟩ := hd
    by_cases hk : k = key
    · subst hk
      simp [setCount, lookupCount, h2]
    · simp [setCount, lookupCount, hk, ih]

theorem countOf_runGateCalls (g : GateInput) (n : Nat) :
    countOf (runGateCalls g n) (resolveCallerId g) = min n FREE_TIER_LIMIT := by
  induction n with
  | zero => simp [runGateCalls, countOf, lookupCount]
  | succ n ih =>
    show countOf (freemiumGate (runGateCalls g n) g).2 (resolveCallerId g) = _
    rw [freemiumGate, checkAndConsume]
    by_cases h : countOf (runGateCalls g n) (resolveCallerId g) < FREE_TIER_LIMIT
    · simp only [h, if_pos]
      rw [ih] at h ⊢
      simp [countOf, lookupCount_setCount_self]
      omega
    · simp only [h, if_neg, not_false_iff]
      rw [ih] at h ⊢
      have : min n FREE_TIER_LIMIT = FREE_TIER_LIMIT := by omega
      rw [this] at *
      omega

/-! ## Decimal stringification of JS numbers -/

/-- Model of JS number-to-string coercion for a nonnegative integer (used by
the source in a template literal and in `url + Date.now()`): the decimal
digit string. -/
def jsNumToString (n : Nat) : String :=
  if n = 0 then "0" else String.mk (((Nat.digits 10 n).map Nat.digitChar).reverse)

/-- The task reference of server.ts line 112, `taskId = id(url + Date.now())`:
the keccak-style string digest `strHash` (supplied by ethers, hence a
parameter) of the resource identifier concatenated with the delivery
timestamp in milliseconds. -/
def taskRefOf (strHash : String → Nat) (url : String) (nowMs : Nat) : Nat :=
  strHash (url ++ jsNumToString nowMs)

/-! ## ABI encoding of the feedback authorization record (server.ts) -/

/-- Big-endian byte string of fixed width: `beBytes k v` is the `k`-byte
representation of `v` modulo `256 ^ k`. -/
def beBytes : Nat → Nat → List Nat
  | 0, _ => []
  | k + 1, v => beBytes k (v / 256) ++ [v % 256]

/-- One 32-byte ABI word (every field of the tuple is a static type, each
padded to 32 bytes by the ABI head encoding). -/
def abiWord (v : Nat) : List Nat := beBytes 32 v

/-- The `abiCoder.encode` call of server.ts lines 119 to 130: the seven-field
tuple `(uint256 numericAgentId, address clientAddress, uint64 indexLimit,
uint256 expiry, uint256 chainId, address identityRegistry, address
agentWalletAddress)` in exactly that order, each field one 32-byte word. -/
def encodeAuthStruct (agentId clientAddr indexLimit expiry chainId registry
    signerAddr : Nat) : List Nat :=
  abiWord agentId ++ abiWord clientAddr ++ abiWord indexLimit ++ abiWord expiry ++
    abiWord chainId ++ abiWord registry ++ abiWord signerAddr

/-! ## The POST /scrape handler (server.ts) -/

/-- Process configuration read at startup in server.ts: `AGENT_PRIVATE_KEY`
(kept as the derived wallet address, `none` when unset), `AGENT_ID`,
`CHAIN_ID` and `IDENTITY_REGISTRY_ADDRESS`. -/
structure ServerConfig where
  agentWalletAddress : Option String
  numericAgentId : Option Nat
  chainId : Nat
  identityRegistry : String

/-- The handler environment: configuration plus the external ethers
primitives and the wall clock — `id`, `keccak256`, the address parsing that
`abiCoder.encode` performs on every `address` field (which throws on a string
that is not a parseable address, modelled as the `Except` result of
`addrToNat`), and `Wallet.signMessage`, which can reject. -/
structure Env where
  cfg : ServerConfig
  nowMs : Nat
  strHash : String → Nat
  keccak : List Nat → Nat
  addrToNat : String → Except String Nat
  sign : Nat → Except String (List Nat)

/-- The JSON request body of POST /scrape. -/
structure ScrapeBody where
  url : Option String
  markdown : Option Bool
  html : Option Bool
  clientAddress : Option String

/-- Return type of `extractUrl` in services/simplescraper.ts: the ok branch
with the upstream data, or the error branch with a message and an optional
upstream status code. -/
inductive ExtractResult (Data : Type) where
  | ok (data : Data)
  | err (message : String) (status : Option Nat)
deriving DecidableEq

/-- What the axios call inside `extractUrl` does: return a response with a
status plus (for the error shape) an optional `error.message`, or throw. -/
inductive UpstreamOutcome (Data : Type) where
  | response (status : Nat) (data : Data) (errMessage : Option String)
  | thrown (message : String)

/-- The `extractUrl` wrapper of services/simplescraper.ts lines 93 to 147:
missing or empty API key short-circuits; an upstream status of 400 or more
maps to the error branch carrying that status and the upstream error message
(default `HTTP status`); a thrown request maps to the error branch without a
status; otherwise the data is returned. -/
def extractUrl {Data : Type} (apiKey : Option String)
    (upstream : UpstreamOutcome Data) : ExtractResult Data :=
  if apiKey = none ∨ apiKey = some "" then
    ExtractResult.err "SIMPLESCRAPER_API_KEY not configured" none
  else
    match upstream with
    | UpstreamOutcome.thrown m => ExtractResult.err m none
    | UpstreamOutcome.response status data errMsg =>
      if 400 ≤ status then
        ExtractResult.err (errMsg.getD ("HTTP " ++ jsNumToString status)) (some status)
      else
        ExtractResult.ok data

/-- The success payload built by the handler: the spread service result plus
the two optional attestation fields of server.ts (`feedbackAuthContract`, the
289-byte blob as bytes, and `feedbackAuth`, the lightweight
`(agentId, taskId)` pair). -/
structure Payload (Data : Type) where
  data : Data
  feedbackAuthContract : Option (List Nat)
  feedbackAuth : Option (String × Nat)
deriving DecidableEq

/-- The four observable outcomes of the handler body: the 400 missing-url
response, the upstream-failure response of line 97, the 500 catch-all of
lines 147 to 150, and the JSON success payload. -/
inductive ScrapeResponse (Data : Type) where
  | badRequest
  | upstreamError (status : Nat) (message : String)
  | internalError
  | ok (payload : Payload Data)
deriving DecidableEq

/-- Line 80 and the guard of line 82: `typeof body?.url === "string" ?
body.url.trim() : undefined`, with empty-after-trim treated as missing by
`if (!url)`. -/
def urlOf (body : ScrapeBody) : Option String :=
  match body.url with
  | some u => let t := jsTrim u; if t = "" then none else some t
  | none => none

/-- Lines 106 to 110: the client identity is the trimmed `clientAddress` body
field when truthy, else the trimmed `x-wallet-address` header when present. -/
def clientAddressOf (body : ScrapeBody) (headerWallet : Option String) :
    Option String :=
  jsOrNullStr (body.clientAddress.map jsTrim) (headerWallet.map jsTrim)

/-- The POST /scrape handler body of server.ts lines 73 to 151, with the
extraction call's outcome supplied as a parameter. Both failure modes of the
attestation step propagate to the surrounding try/catch, which produces the
500 internal-error response: a throw of `abiCoder.encode` when any of the
three `address` fields (client address, registry address, signer address)
fails to parse, and a rejection of `signMessage`. -/
def scrapeHandler {Data : Type} (e : Env) (extractResult : ExtractResult Data)
    (body : ScrapeBody) (headerWallet : Option String) : ScrapeResponse Data :=
  match urlOf body with
  | none => ScrapeResponse.badRequest
  | some url =>
    match extractResult with
    | ExtractResult.err msg status => ScrapeResponse.upstreamError (status.getD 503) msg
    | ExtractResult.ok data =>
      match e.cfg.agentWalletAddress, clientAddressOf body headerWallet with
      | some agentAddr, some ca =>
        if ca = "" then
          ScrapeResponse.ok ⟨data, none, none⟩
        else
          let taskId := taskRefOf e.strHash url e.nowMs
          match e.cfg.numericAgentId with
          | some aid =>
            let expiry := e.nowMs / 1000 + 3600
            match e.addrToNat ca, e.addrToNat e.cfg.identityRegistry,
                e.addrToNat agentAddr with
            | Except.ok caN, Except.ok regN, Except.ok agN =>
              let enc := encodeAuthStruct aid caN 1000 expiry
                e.cfg.chainId regN agN
              match e.sign (e.keccak enc) with
              | Except.error _ => ScrapeResponse.internalError
              | Except.ok sig =>
                ScrapeResponse.ok ⟨data, some (enc ++ sig), some (agentAddr, taskId)⟩
            | _, _, _ => ScrapeResponse.internalError
          | none => ScrapeResponse.ok ⟨data, none, some (agentAddr, taskId)⟩
      | _, _ => ScrapeResponse.ok ⟨data, none, none⟩

/-- Outcome of the full route `freemiumGate(x402Middleware)` followed by the
handler: either the handler's response, or the request was handed to the
external payment middleware. -/
inductive PipelineOutcome (Data : Type) where
  | response (r : ScrapeResponse Data)
  | adapterHandled
deriving DecidableEq

/-- The whole POST /scrape route: the gate runs first (mutating the quota
store), and only a granted request reaches the handler body. -/
def processScrape {Data : Type} (e : Env) (store : QuotaStore) (g : GateInput)
    (body : ScrapeBody) (extractResult : ExtractResult Data) :
    PipelineOutcome Data × QuotaStore :=
  match freemiumGate store g with
  | (Route.handler _, store2) =>
    (PipelineOutcome.response (scrapeHandler e extractResult body g.headerWallet), store2)
  | (Route.adapter, store2) => (PipelineOutcome.adapterHandled, store2)

/-! ## Gate step lemmas -/

theorem freemiumGate_grant (store : QuotaStore) (g : GateInput)
    (h : countOf store (resolveCallerId g) < FREE_TIER_LIMIT) :
    freemiumGate store g =
      (Route.handler (FREE_TIER_LIMIT - countOf store (resolveCallerId g) - 1),
        setCount store (resolveCallerId g) (countOf store (resolveCallerId g) + 1)) := by
  simp [freemiumGate, checkAndConsume, h]

theorem freemiumGate_deny (store : QuotaStore) (g : GateInput)
    (h : ¬ countOf store (resolveCallerId g) < FREE_TIER_LIMIT) :
    freemiumGate store g = (Route.adapter, store) := by
  simp [freemiumGate, checkAndConsume, h]

theorem nthRoute_eq (g : GateInput) (n : Nat) :
    nthRoute g n =
      if n < FREE_TIER_LIMIT then Route.handler (FREE_TIER_LIMIT - n - 1)
      else Route.adapter := by
  by_cases h : n < FREE_TIER_LIMIT
  · have hc : countOf (runGateCalls g n) (resolveCallerId g) = n := by
      rw [countOf_runGateCalls]; omega
    rw [nthRoute, freemiumGate_grant _ _ (by rw [hc]; exact h), hc]
    simp [h]
  · have hc : countOf (runGateCalls g n) (resolveCallerId g) = FREE_TIER_LIMIT := by
      rw [countOf_runGateCalls]; omega
    rw [nthRoute, freemiumGate_deny _ _ (by rw [hc]; omega)]
    simp [h]

theorem countOf_setCount_self (store : QuotaStore) (key : String) (v : Nat) :
    countOf (setCount store key v) key = v := by
  simp [countOf, lookupCount_setCount_self]

theorem runSched_count (g : GateInput) (L : List Nat) :
    countOf (runSched g L).1 (resolveCallerId g) = min L.length FREE_TIER_LIMIT
    ∧ (runSched g L).2 = min L.length FREE_TIER_LIMIT := by
  induction L with
  | nil => simp [runSched, countOf, lookupCount]
  | cons a t ih =>
    obtain ⟨ihc, ihg⟩ := ih
    by_cases h : countOf (runSched g t).1 (resolveCallerId g) < FREE_TIER_LIMIT
    · have hg := freemiumGate_grant _ g h
      constructor
      · simp only [runSched, hg, List.length_cons]
        rw [countOf_setCount_self]
        rw [ihc] at h ⊢
        omega
      · simp only [runSched, hg, List.length_cons]
        rw [ihc] at h
        rw [ihg]
        omega
    · have hg := freemiumGate_deny _ g h
      rw [ihc] at h
      constructor
      · simp only [runSched, hg, List.length_cons]
        rw [ihc]
        omega
      · simp only [runSched, hg, List.length_cons]
        rw [ihg]
        omega

/-- C1: a single quota check-and-consume step grants free access iff the
stored consumed count (0 if the identity is unseen) is strictly below the
free-tier limit 2; on grant it increments the stored count by exactly one and
reports remaining = limit - consumed - 1, on denial it reports remaining = 0
and leaves the store unmutated; consequently, for every identity, calls
1..limit of a process lifetime are routed directly to the handler and the
(limit+1)-th call is the first one routed to the payment adapter. -/
theorem checkAndConsume_spec (store : QuotaStore) (idy : String) (g : GateInput)
    (n : Nat) :
    ((checkAndConsume store idy).1.1 = true ↔ countOf store idy < FREE_TIER_LIMIT)
    ∧ (countOf store idy < FREE_TIER_LIMIT →
        checkAndConsume store idy =
          ((true, FREE_TIER_LIMIT - countOf store idy - 1),
            setCount store idy (countOf store idy + 1))
          ∧ countOf (checkAndConsume store idy).2 idy = countOf store idy + 1)
    ∧ (FREE_TIER_LIMIT ≤ countOf store idy →
        checkAndConsume store idy = ((false, 0), store))
    ∧ (n < FREE_TIER_LIMIT → nthRoute g n = Route.handler (FREE_TIER_LIMIT - n - 1))
    ∧ (FREE_TIER_LIMIT ≤ n → nthRoute g n = Route.adapter) := by
  refine ⟨?_, ?_, ?_, ?_, ?_⟩
  · by_cases h : countOf store idy < FREE_TIER_LIMIT <;> simp [checkAndConsume, h]
  · intro h
    constructor
    · simp [checkAndConsume, h]
    · have h2 : (lookupCount store idy).getD 0 < FREE_TIER_LIMIT := h
      simp [checkAndConsume, countOf, h2, lookupCount_setCount_self]
  · intro h
    have h2 : ¬ countOf store idy < FREE_TIER_LIMIT := by omega
    simp [checkAndConsume, h2]
  · intro h
    rw [nthRoute_eq]
    simp [h]
  · intro h
    have h2 : ¬ n < FREE_TIER_LIMIT := by omega
    rw [nthRoute_eq]
    simp [h2]

/-- Witness for C1: the spec scenario with limit 2 — call 1 grants with
remaining 1, call 2 grants with remaining 0, call 3 is routed to the payment
adapter, and a fresh check-and-consume step stores count 1. -/
theorem checkAndConsume_spec_witness :
    nthRoute ⟨some "0xabc", none, none⟩ 0 = Route.handler 1
    ∧ nthRoute ⟨some "0xabc", none, none⟩ 1 = Route.handler 0
    ∧ nthRoute ⟨some "0xabc", none, none⟩ 2 = Route.adapter
    ∧ checkAndConsume [] "0xabc" = ((true, 1), [("0xabc", 1)]) :=
  ⟨(checkAndConsume_spec [] "0xabc" ⟨some "0xabc", none, none⟩ 0).2.2.2.1 (by decide),
   (checkAndConsume_spec [] "0xabc" ⟨some "0xabc", none, none⟩ 1).2.2.2.1 (by decide),
   (checkAndConsume_spec [] "0xabc" ⟨some "0xabc", none, none⟩ 2).2.2.2.2 (by decide),
   ((checkAndConsume_spec [] "0xabc" ⟨some "0xabc", none, none⟩ 0).2.1 (by decide)).1⟩

/-- C2: among limit + k requests (k > 0) for one identity, exactly limit are
granted free access, whatever the arrival order. Each gate invocation is a
single atomic step (the gate body is synchronous JavaScript with no
suspension point between the quota read and the increment), so an arrival
interleaving of the requests is a schedule list; the grant count is exactly
the limit for every schedule of length limit + k. -/
theorem concurrentGrants_exact (g : GateInput) (sched : List Nat) (k : Nat)
    (hk : 0 < k) (hlen : sched.length = FREE_TIER_LIMIT + k) :
    (runSched g sched).2 = FREE_TIER_LIMIT := by
  have h := (runSched_count g sched).2
  rw [hlen] at h
  rw [h]
  omega

/-- Witness for C2: three concurrent requests for one identity with limit 2
yield exactly 2 grants. -/
theorem concurrentGrants_exact_witness :
    (runSched ⟨some "0xabc", none, none⟩ [10, 11, 12]).2 = FREE_TIER_LIMIT :=
  concurrentGrants_exact ⟨some "0xabc", none, none⟩ [10, 11, 12] 1 (by decide)
    (by decide)

/-! ## Response projections -/

/-- The optional lightweight attestation pair of a response (absent on every
non-success response). -/
def responseFeedbackAuth {Data : Type} : ScrapeResponse Data → Option (String × Nat)
  | ScrapeResponse.ok p => p.feedbackAuth
  | _ => none

/-- The optional on-chain authorization blob of a response. -/
def responseFeedbackContract {Data : Type} : ScrapeResponse Data → Option (List Nat)
  | ScrapeResponse.ok p => p.feedbackAuthContract
  | _ => none

/-- A sample environment: no signer key configured. -/
def envBasic : Env :=
  ⟨⟨none, none, 84532, "0xReg"⟩, 0, fun _ => 0, fun _ => 0, fun _ => Except.ok 0,
    fun _ => Except.ok []⟩

/-- C7: identity resolution is a total function of the request metadata — the
lower-cased, trimmed wallet header when that is non-empty, else the first
non-empty of forwarded client address and socket peer address, else the
sentinel "unknown"; the produced identity is never empty and the step cannot
fail. -/
theorem resolveCallerId_spec (hdr ip remote : Option String) :
    (jsTrim (jsToLower (hdr.getD "")) ≠ "" →
      resolveCallerId ⟨hdr, ip, remote⟩ = jsTrim (jsToLower (hdr.getD "")))
    ∧ (jsTrim (jsToLower (hdr.getD "")) = "" → ∀ s, ip = some s → s ≠ "" →
        resolveCallerId ⟨hdr, ip, remote⟩ = s)
    ∧ (jsTrim (jsToLower (hdr.getD "")) = "" → (ip = none ∨ ip = some "") →
        ∀ s, remote = some s → s ≠ "" → resolveCallerId ⟨hdr, ip, remote⟩ = s)
    ∧ (jsTrim (jsToLower (hdr.getD "")) = "" → (ip = none ∨ ip = some "") →
        (remote = none ∨ remote = some "") →
        resolveCallerId ⟨hdr, ip, remote⟩ = "unknown")
    ∧ resolveCallerId ⟨hdr, ip, remote⟩ ≠ "" := by
  refine ⟨?_, ?_, ?_, ?_, ?_⟩
  · intro hw
    simp [resolveCallerId, jsOr, hw]
  · intro hw s hip hs
    simp [resolveCallerId, jsOr, jsOrOpt, hw, hip, hs]
  · intro hw hip s hrem hs
    rcases hip with hip | hip <;>
      simp [resolveCallerId, jsOr, jsOrOpt, hw, hip, hrem, hs]
  · intro hw hip hrem
    rcases hip with hip | hip <;> rcases hrem with hrem | hrem <;>
      simp [resolveCallerId, jsOr, jsOrOpt, hw, hip, hrem]
  · by_cases hw : jsTrim (jsToLower (hdr.getD "")) = ""
    · cases hip : ip with
      | none =>
        cases hrem : remote with
        | none => simp [resolveCallerId, jsOr, jsOrOpt, hw]
        | some s =>
          by_cases hs : s = "" <;>
            simp [resolveCallerId, jsOr, jsOrOpt, hw, hs]
      | some s =>
        by_cases hs : s = ""
        · cases hrem : remote with
          | none => simp [resolveCallerId, jsOr, jsOrOpt, hw, hs]
          | some s2 =>
            by_cases hs2 : s2 = "" <;>
              simp [resolveCallerId, jsOr, jsOrOpt, hw, hs, hs2]
        · simp [resolveCallerId, jsOr, jsOrOpt, hw, hs]
    · simp [resolveCallerId, jsOr, hw]

/-- Witness for C7 at concrete inputs: header, forwarded address, peer
address, and the no-source sentinel case. -/
theorem resolveCallerId_spec_witness :
    resolveCallerId ⟨some "0xAbC", none, none⟩ = jsTrim (jsToLower "0xAbC")
    ∧ resolveCallerId ⟨none, some "10.0.0.1", none⟩ = "10.0.0.1"
    ∧ resolveCallerId ⟨none, none, some "10.0.0.2"⟩ = "10.0.0.2"
    ∧ resolveCallerId ⟨none, none, none⟩ = "unknown"
    ∧ resolveCallerId ⟨none, none, none⟩ ≠ "" :=
  ⟨(resolveCallerId_spec (some "0xAbC") none none).1 (by decide),
   (resolveCallerId_spec none (some "10.0.0.1") none).2.1 (by decide) _ rfl (by decide),
   (resolveCallerId_spec none none (some "10.0.0.2")).2.2.1 (by decide) (Or.inl rfl)
     _ rfl (by decide),
   (resolveCallerId_spec none none none).2.2.2.1 (by decide) (Or.inl rfl) (Or.inl rfl),
   (resolveCallerId_spec none none none).2.2.2.2⟩

/-- C8: the gate cannot crash and never propagates an exception: every
operation in its body is total (as embedded, identity resolution is a total
function — the gate source contains no throwing step for string-typed
headers), so for every store and request the gate yields a routing decision,
and a request with no identity source at all is charged to the sentinel
identity and still routed. -/
theorem freemiumGate_total (store : QuotaStore) (g : GateInput) :
    ((∃ r, (freemiumGate store g).1 = Route.handler r)
      ∨ (freemiumGate store g).1 = Route.adapter)
    ∧ (g.headerWallet = none → g.ip = none → g.remoteAddress = none →
        resolveCallerId g = "unknown"
        ∧ freemiumGate store g =
            match checkAndConsume store "unknown" with
            | ((true, remaining), store2) => (Route.handler remaining, store2)
            | ((false, _), store2) => (Route.adapter, store2)) := by
  constructor
  · by_cases h : countOf store (resolveCallerId g) < FREE_TIER_LIMIT
    · rw [freemiumGate_grant store g h]
      exact Or.inl ⟨_, rfl⟩
    · rw [freemiumGate_deny store g h]
      exact Or.inr rfl
  · intro h1 h2 h3
    obtain ⟨hw, hip, hrem⟩ := g
    simp only at h1 h2 h3
    subst h1; subst h2; subst h3
    have hres : resolveCallerId ⟨none, none, none⟩ = "unknown" := by decide
    exact ⟨hres, by rw [freemiumGate, hres]⟩

/-- Witness for C8: with every identity source absent the gate still routes,
charging the sentinel identity. -/
theorem freemiumGate_total_witness :
    ((∃ r, (freemiumGate [] ⟨none, none, none⟩).1 = Route.handler r)
      ∨ (freemiumGate [] ⟨none, none, none⟩).1 = Route.adapter)
    ∧ resolveCallerId ⟨none, none, none⟩ = "unknown" :=
  ⟨(freemiumGate_total [] ⟨none, none, none⟩).1,
   ((freemiumGate_total [] ⟨none, none, none⟩).2 rfl rfl rfl).1⟩

/-- C9: every extraction failure is surfaced as the structured upstream-error
response with the upstream-reported status code when one exists and 503
otherwise; the error constructor carries no attestation fields, whatever the
attestation configuration. -/
theorem upstreamFailure_propagation {Data : Type} (e : Env) (body : ScrapeBody)
    (hdr : Option String) (u : String) (hu : urlOf body = some u) :
    (∀ (msg : String) (st : Option Nat),
      @scrapeHandler Data e (ExtractResult.err msg st) body hdr =
        ScrapeResponse.upstreamError (st.getD 503) msg)
    ∧ (∀ (apiKey : Option String) (status : Nat) (data : Data)
        (errMsg : Option String),
        ¬ (apiKey = none ∨ apiKey = some "") → 400 ≤ status →
        scrapeHandler e
          (extractUrl apiKey (UpstreamOutcome.response status data errMsg)) body hdr =
          ScrapeResponse.upstreamError status
            (errMsg.getD ("HTTP " ++ jsNumToString status)))
    ∧ (∀ (apiKey : Option String) (m : String),
        ¬ (apiKey = none ∨ apiKey = some "") →
        @scrapeHandler Data e
          (extractUrl apiKey (UpstreamOutcome.thrown m)) body hdr =
          ScrapeResponse.upstreamError 503 m) := by
  refine ⟨?_, ?_, ?_⟩
  · intro msg st
    simp [scrapeHandler, hu]
  · intro apiKey status data errMsg hkey hst
    simp [scrapeHandler, hu, extractUrl, hkey, hst]
  · intro apiKey m hkey
    simp [scrapeHandler, hu, extractUrl, hkey]

/-- Witness for C9: an upstream failure with status 500 surfaces as a 500
error, and one without a status surfaces as 503. -/
theorem upstreamFailure_propagation_witness :
    @scrapeHandler Nat envBasic (ExtractResult.err "boom" (some 500))
        ⟨some "https://example.com", none, none, none⟩ none =
      ScrapeResponse.upstreamError 500 "boom"
    ∧ @scrapeHandler Nat envBasic (ExtractResult.err "boom" none)
        ⟨some "https://example.com", none, none, none⟩ none =
      ScrapeResponse.upstreamError 503 "boom" :=
  ⟨(upstreamFailure_propagation envBasic ⟨some "https://example.com", none, none, none⟩
      none "https://example.com" (by decide)).1 "boom" (some 500),
   (upstreamFailure_propagation envBasic ⟨some "https://example.com", none, none, none⟩
      none "https://example.com" (by decide)).1 "boom" none⟩

/-- C10: the quota is consumed before body validation — a granted request
whose body has no url (or an empty-after-trim url) still increments the
caller's consumed count, and the response is the 400 bad-request answer for
every possible extraction outcome (the extraction service's result is never
consulted). -/
theorem quotaConsumedBeforeValidation {Data : Type} (e : Env) (store : QuotaStore)
    (g : GateInput) (body : ScrapeBody) (extractResult : ExtractResult Data)
    (hq : countOf store (resolveCallerId g) < FREE_TIER_LIMIT)
    (hurl : urlOf body = none) :
    (processScrape e store g body extractResult).1 =
      PipelineOutcome.response ScrapeResponse.badRequest
    ∧ countOf (processScrape e store g body extractResult).2 (resolveCallerId g) =
        countOf store (resolveCallerId g) + 1 := by
  have hg := freemiumGate_grant store g hq
  constructor
  · simp [processScrape, hg, scrapeHandler, hurl]
  · simp [processScrape, hg, countOf_setCount_self]

/-- Witness for C10: a within-quota caller posting a body with no url gets
the 400 response while the consumed count rises from 0 to 1. -/
theorem quotaConsumedBeforeValidation_witness :
    (@processScrape Nat envBasic [] ⟨some "0xabc", none, none⟩
        ⟨none, none, none, none⟩ (ExtractResult.ok 7)).1 =
      PipelineOutcome.response ScrapeResponse.badRequest
    ∧ countOf (@processScrape Nat envBasic [] ⟨some "0xabc", none, none⟩
        ⟨none, none, none, none⟩ (ExtractResult.ok 7)).2
        (resolveCallerId ⟨some "0xabc", none, none⟩) =
      countOf ([] : QuotaStore) (resolveCallerId ⟨some "0xabc", none, none⟩) + 1 :=
  quotaConsumedBeforeValidation envBasic [] ⟨some "0xabc", none, none⟩
    ⟨none, none, none, none⟩ (ExtractResult.ok 7) (by decide) rfl

/-- Whether a response is a success payload. -/
def isOkResponse {Data : Type} : ScrapeResponse Data → Bool
  | ScrapeResponse.ok _ => true
  | _ => false

/-- Counterexample to C3 as stated: signer key and numeric agent id are
configured, a client identity is supplied, the service delivery succeeded
(extraction returned ok), yet a rejected signing step yields the 500
internal-error response of the surrounding try/catch — the service result is
not returned with a success status. -/
theorem signingFailure_counterexample :
    @scrapeHandler Nat
      ⟨⟨some "0xagent", some 1, 84532, "0xReg"⟩, 0, fun _ => 0, fun _ => 0,
        fun _ => Except.ok 0, fun _ => Except.error "sign rejected"⟩
      (ExtractResult.ok 7)
      ⟨some "https://example.com", none, none, some "0xclient"⟩ none =
      ScrapeResponse.internalError := by
  decide

/-- C3 amended: the handler wraps signing in the same try/catch as the whole
body, so when an attestation is attempted (signer key and numeric agent id
configured, client identity supplied) and the signing step throws, the entire
request fails with the 500 internal error and the service result is not
returned — signing is not fail-closed; the attestation is omitted without
error only on the paths where signing is never attempted. (Whether or not
the address fields parse is immaterial: a parse failure lands in the same
catch.) -/
theorem signingFailure_failsRequest {Data : Type} (e : Env) (data : Data)
    (body : ScrapeBody) (hdr : Option String) (u w : String) (aid : Nat)
    (ca : String) (hu : urlOf body = some u)
    (hw : e.cfg.agentWalletAddress = some w)
    (haid : e.cfg.numericAgentId = some aid)
    (hca : clientAddressOf body hdr = some ca) (hne : ca ≠ "")
    (herr : ∀ h, ∃ m, e.sign h = Except.error m) :
    scrapeHandler e (ExtractResult.ok data) body hdr =
      ScrapeResponse.internalError := by
  cases hca2 : e.addrToNat ca with
  | error m =>
    simp [scrapeHandler, hu, hw, haid, hca, hne, hca2]
  | ok caN =>
    cases hreg : e.addrToNat e.cfg.identityRegistry with
    | error m =>
      simp [scrapeHandler, hu, hw, haid, hca, hne, hca2, hreg]
    | ok regN =>
      cases hag : e.addrToNat w with
      | error m =>
        simp [scrapeHandler, hu, hw, haid, hca, hne, hca2, hreg, hag]
      | ok agN =>
        obtain ⟨m, hm⟩ := herr (e.keccak (encodeAuthStruct aid caN 1000
          (e.nowMs / 1000 + 3600) e.cfg.chainId regN agN))
        simp [scrapeHandler, hu, hw, haid, hca, hne, hca2, hreg, hag, hm]

/-- Witness for the amended C3: the concrete failing configuration. -/
theorem signingFailure_failsRequest_witness :
    @scrapeHandler Nat
      ⟨⟨some "0xagent", some 1, 84532, "0xReg"⟩, 0, fun _ => 0, fun _ => 0,
        fun _ => Except.ok 0, fun _ => Except.error "sign rejected"⟩
      (ExtractResult.ok 7)
      ⟨some "https://example.com", none, none, some "0xclient"⟩ none =
      ScrapeResponse.internalError :=
  signingFailure_failsRequest
    ⟨⟨some "0xagent", some 1, 84532, "0xReg"⟩, 0, fun _ => 0, fun _ => 0,
      fun _ => Except.ok 0, fun _ => Except.error "sign rejected"⟩
    7 ⟨some "https://example.com", none, none, some "0xclient"⟩ none
    "https://example.com" "0xagent" 1 "0xclient" (by decide) rfl rfl (by decide)
    (by decide) (fun h => ⟨"sign rejected", rfl⟩)

/-! ## Blob shape lemmas -/

theorem beBytes_length (k v : Nat) : (beBytes k v).length = k := by
  induction k generalizing v with
  | zero => rfl
  | succ k ih => simp [beBytes, ih]

theorem encodeAuthStruct_length (a b c d f g h : Nat) :
    (encodeAuthStruct a b c d f g h).length = 224 := by
  simp [encodeAuthStruct, abiWord, beBytes_length]

/-- C4: with a numeric agent id configured, the emitted authorization blob is
exactly 289 bytes; bytes [0,224) are the deterministic fixed-width encoding
of the seven-field tuple in the dictated order with expiry = delivery seconds
+ 3600, and bytes [224,289) are the 65-byte signature over the hash of that
encoding, recoverable to the configured signer's address. The ECDSA
primitives (sign of 65-byte output, recovery) are the external ethers
collaborators, supplied with their contract as hypotheses, and the parsed
values of the three address fields (which the ABI encoder accepts on every
really-produced blob) enter through the parse hypotheses. -/
theorem authBlob_shape {Data : Type} (e : Env) (data : Data) (body : ScrapeBody)
    (hdr : Option String) (u w : String) (aid : Nat) (ca : String)
    (sign65 : Nat → List Nat) (recover : Nat → List Nat → Nat)
    (caN regN signerAddr : Nat)
    (hu : urlOf body = some u)
    (hw : e.cfg.agentWalletAddress = some w)
    (haid : e.cfg.numericAgentId = some aid)
    (hca : clientAddressOf body hdr = some ca) (hne : ca ≠ "")
    (hcaN : e.addrToNat ca = Except.ok caN)
    (hregN : e.addrToNat e.cfg.identityRegistry = Except.ok regN)
    (hagN : e.addrToNat w = Except.ok signerAddr)
    (hsig : ∀ h, e.sign h = Except.ok (sign65 h))
    (hlen : ∀ h, (sign65 h).length = 65)
    (hrec : ∀ h, recover h (sign65 h) = signerAddr) :
    ∃ blob,
      responseFeedbackContract (scrapeHandler e (ExtractResult.ok data) body hdr) =
        some blob
      ∧ blob.length = 289
      ∧ blob.take 224 =
          encodeAuthStruct aid caN 1000 (e.nowMs / 1000 + 3600)
            e.cfg.chainId regN signerAddr
      ∧ (blob.drop 224).length = 65
      ∧ recover (e.keccak (blob.take 224)) (blob.drop 224) = signerAddr := by
  set enc := encodeAuthStruct aid caN 1000 (e.nowMs / 1000 + 3600)
    e.cfg.chainId regN signerAddr with henc
  have hel : enc.length = 224 := encodeAuthStruct_length _ _ _ _ _ _ _
  have hresp : responseFeedbackContract (scrapeHandler e (ExtractResult.ok data) body hdr) =
      some (enc ++ sign65 (e.keccak enc)) := by
    simp [scrapeHandler, hu, hw, haid, hca, hne, hcaN, hregN, hagN, hsig,
      responseFeedbackContract, henc]
  refine ⟨enc ++ sign65 (e.keccak enc), hresp, ?_, ?_, ?_, ?_⟩
  · simp [List.length_append, hel, hlen]
  · rw [List.take_left' hel]
  · rw [List.drop_left' hel, hlen]
  · rw [List.take_left' hel, List.drop_left' hel, hrec]

/-- Witness for C4: a concrete environment with a degenerate but law-abiding
signer model. -/
theorem authBlob_shape_witness :
    ∃ blob,
      responseFeedbackContract (@scrapeHandler Nat
        ⟨⟨some "0xagent", some 1, 84532, "0xReg"⟩, 0, fun _ => 0, fun _ => 0,
          fun _ => Except.ok 7, fun _ => Except.ok (List.replicate 65 0)⟩
        (ExtractResult.ok 9)
        ⟨some "https://example.com", none, none, some "0xclient"⟩ none) = some blob
      ∧ blob.length = 289
      ∧ blob.take 224 = encodeAuthStruct 1 7 1000 3600 84532 7 7
      ∧ (blob.drop 224).length = 65
      ∧ (fun _ _ => 7 : Nat → List Nat → Nat) 0 (blob.drop 224) = 7 :=
  authBlob_shape
    ⟨⟨some "0xagent", some 1, 84532, "0xReg"⟩, 0, fun _ => 0, fun _ => 0,
      fun _ => Except.ok 7, fun _ => Except.ok (List.replicate 65 0)⟩
    9 ⟨some "https://example.com", none, none, some "0xclient"⟩ none
    "https://example.com" "0xagent" 1 "0xclient"
    (fun _ => List.replicate 65 0) (fun _ _ => 7) 7 7 7
    (by decide) rfl rfl (by decide) (by decide)
    rfl rfl rfl
    (fun _ => rfl) (fun _ => rfl) (fun _ => rfl)

/-- Counterexample to C6 as stated: signer key and numeric agent id are
configured and a non-empty client identity is supplied, but the identity
("bob") is not a parseable address, so `abiCoder.encode` throws into the
handler-wide catch: the response is the 500 internal error — no attestation
is produced and no success response is returned, refuting the claimed iff. -/
theorem attestation_counterexample :
    @scrapeHandler Nat
      ⟨⟨some "0xagent", some 1, 84532, "0xReg"⟩, 0, fun _ => 0, fun _ => 0,
        fun s => if s = "bob" then Except.error "invalid address" else Except.ok 7,
        fun _ => Except.ok (List.replicate 65 0)⟩
      (ExtractResult.ok 7)
      ⟨some "https://example.com", none, none, some "bob"⟩ none =
      ScrapeResponse.internalError
    ∧ responseFeedbackAuth (@scrapeHandler Nat
        ⟨⟨some "0xagent", some 1, 84532, "0xReg"⟩, 0, fun _ => 0, fun _ => 0,
          fun s => if s = "bob" then Except.error "invalid address" else Except.ok 7,
          fun _ => Except.ok (List.replicate 65 0)⟩
        (ExtractResult.ok 7)
        ⟨some "https://example.com", none, none, some "bob"⟩ none) = none
    ∧ clientAddressOf ⟨some "https://example.com", none, none, some "bob"⟩ none =
        some "bob" := by
  refine ⟨by decide, by decide, by decide⟩

/-- C6: on a successful delivery (and with a signing step that does not
reject and an ABI encoder that accepts the address strings it is given — C3
settles the rejecting sign step, and `attestation_counterexample` shows the
iff fails when the client identity does not parse as an address), an
attestation is present iff a signer key is configured and a client identity
was supplied via the body field or the wallet header; with no signer key the
success response carries no attestation fields at all, and with a signer key
but no numeric agent id it carries exactly the lightweight pair and no binary
blob. -/
theorem attestation_iff {Data : Type} (e : Env) (data : Data) (body : ScrapeBody)
    (hdr : Option String) (u : String) (hu : urlOf body = some u)
    (hsign : ∀ h, ∃ s, e.sign h = Except.ok s)
    (henc : ∀ s, ∃ n, e.addrToNat s = Except.ok n) :
    isOkResponse (scrapeHandler e (ExtractResult.ok data) body hdr) = true
    ∧ ((responseFeedbackAuth (scrapeHandler e (ExtractResult.ok data) body hdr)).isSome ↔
        (e.cfg.agentWalletAddress.isSome ∧
          ∃ ca, clientAddressOf body hdr = some ca ∧ ca ≠ ""))
    ∧ (e.cfg.agentWalletAddress = none →
        responseFeedbackAuth (scrapeHandler e (ExtractResult.ok data) body hdr) = none
        ∧ responseFeedbackContract (scrapeHandler e (ExtractResult.ok data) body hdr)
            = none)
    ∧ (∀ w ca, e.cfg.agentWalletAddress = some w →
        clientAddressOf body hdr = some ca → ca ≠ "" →
        e.cfg.numericAgentId = none →
        responseFeedbackAuth (scrapeHandler e (ExtractResult.ok data) body hdr) =
          some (w, taskRefOf e.strHash u e.nowMs)
        ∧ responseFeedbackContract (scrapeHandler e (ExtractResult.ok data) body hdr)
            = none) := by
  cases hw : e.cfg.agentWalletAddress with
  | none =>
    cases hc : clientAddressOf body hdr with
    | none =>
      refine ⟨?_, ?_, ?_, ?_⟩ <;>
        simp [scrapeHandler, hu, hw, hc, isOkResponse, responseFeedbackAuth,
          responseFeedbackContract]
    | some ca =>
      refine ⟨?_, ?_, ?_, ?_⟩ <;>
        simp [scrapeHandler, hu, hw, hc, isOkResponse, responseFeedbackAuth,
          responseFeedbackContract]
  | some w =>
    cases hc : clientAddressOf body hdr with
    | none =>
      refine ⟨?_, ?_, ?_, ?_⟩ <;>
        simp [scrapeHandler, hu, hw, hc, isOkResponse, responseFeedbackAuth,
          responseFeedbackContract]
    | some ca =>
      by_cases hca : ca = ""
      · subst hca
        refine ⟨?_, ?_, ?_, ?_⟩ <;>
          simp [scrapeHandler, hu, hw, hc, isOkResponse, responseFeedbackAuth,
            responseFeedbackContract]
      · cases hn : e.cfg.numericAgentId with
        | none =>
          refine ⟨?_, ?_, ?_, ?_⟩ <;>
            simp [scrapeHandler, hu, hw, hc, hca, hn, isOkResponse,
              responseFeedbackAuth, responseFeedbackContract]
        | some aid =>
          obtain ⟨caN, hcaN⟩ := henc ca
          obtain ⟨regN, hregN⟩ := henc e.cfg.identityRegistry
          obtain ⟨agN, hagN⟩ := henc w
          obtain ⟨s, hs⟩ := hsign (e.keccak (encodeAuthStruct aid caN
            1000 (e.nowMs / 1000 + 3600) e.cfg.chainId regN agN))
          refine ⟨?_, ?_, ?_, ?_⟩ <;>
            simp [scrapeHandler, hu, hw, hc, hca, hn, hcaN, hregN, hagN, hs,
              isOkResponse, responseFeedbackAuth, responseFeedbackContract]

/-- A sample environment with a signer key configured and no numeric agent
id. -/
def envSigner : Env :=
  ⟨⟨some "0xagent", none, 84532, "0xReg"⟩, 0, fun _ => 0, fun _ => 0,
    fun _ => Except.ok 0, fun _ => Except.ok (List.replicate 65 0)⟩

/-- Witness for C6: signer key configured, no numeric agent id, client
identity supplied in the body — the response is a success carrying exactly
the lightweight pair. -/
theorem attestation_iff_witness :
    isOkResponse (@scrapeHandler Nat envSigner (ExtractResult.ok 7)
        ⟨some "https://example.com", none, none, some "0xclient"⟩ none) = true
    ∧ ((responseFeedbackAuth (@scrapeHandler Nat envSigner
          (ExtractResult.ok 7)
          ⟨some "https://example.com", none, none, some "0xclient"⟩ none)).isSome ↔
        (envSigner.cfg.agentWalletAddress.isSome ∧
          ∃ ca, clientAddressOf
              ⟨some "https://example.com", none, none, some "0xclient"⟩ none =
              some ca ∧ ca ≠ ""))
    ∧ (envSigner.cfg.agentWalletAddress = none →
        responseFeedbackAuth (@scrapeHandler Nat envSigner
          (ExtractResult.ok 7)
          ⟨some "https://example.com", none, none, some "0xclient"⟩ none) = none
        ∧ responseFeedbackContract (@scrapeHandler Nat envSigner
            (ExtractResult.ok 7)
            ⟨some "https://example.com", none, none, some "0xclient"⟩ none) = none)
    ∧ (∀ w ca, envSigner.cfg.agentWalletAddress = some w →
        clientAddressOf ⟨some "https://example.com", none, none, some "0xclient"⟩
            none = some ca → ca ≠ "" →
        envSigner.cfg.numericAgentId = none →
        responseFeedbackAuth (@scrapeHandler Nat envSigner
            (ExtractResult.ok 7)
            ⟨some "https://example.com", none, none, some "0xclient"⟩ none) =
          some (w, taskRefOf envSigner.strHash "https://example.com" envSigner.nowMs)
        ∧ responseFeedbackContract (@scrapeHandler Nat envSigner
            (ExtractResult.ok 7)
            ⟨some "https://example.com", none, none, some "0xclient"⟩ none) = none) :=
  attestation_iff envSigner 7
    ⟨some "https://example.com", none, none, some "0xclient"⟩ none
    "https://example.com" (by decide) (fun h => ⟨List.replicate 65 0, rfl⟩)
    (fun s => ⟨0, rfl⟩)

/-! ## Injectivity of the decimal stringification -/

/-- Decode a decimal digit string back to the number it denotes. -/
def decodeDecimal (s : String) : Nat :=
  Nat.ofDigits 10 ((s.data.map fun c => c.toNat - 48).reverse)

theorem digitChar_toNat_sub (d : Nat) (h : d < 10) :
    (Nat.digitChar d).toNat - 48 = d := by
  interval_cases d <;> decide

theorem decode_jsNumToString (n : Nat) : decodeDecimal (jsNumToString n) = n := by
  by_cases h : n = 0
  · subst h
    decide
  · simp only [jsNumToString, h, if_false, decodeDecimal]
    show Nat.ofDigits 10
      (((((Nat.digits 10 n).map Nat.digitChar).reverse).map fun c => c.toNat - 48).reverse) = n
    rw [List.map_reverse, List.reverse_reverse, List.map_map]
    have h2 : (Nat.digits 10 n).map ((fun c : Char => c.toNat - 48) ∘ Nat.digitChar) =
        (Nat.digits 10 n).map id := by
      apply List.map_congr_left
      intro d hd
      exact digitChar_toNat_sub d (Nat.digits_lt_base (by norm_num) hd)
    rw [h2, List.map_id, Nat.ofDigits_digits]

theorem jsNumToString_injective : Function.Injective jsNumToString :=
  Function.LeftInverse.injective decode_jsNumToString

/-- C5: the task reference is a deterministic function of the pair (resource
identifier, delivery timestamp in milliseconds) — recomputation on identical
inputs yields the identical reference — and, with the digest modelled as
collision-free (the spec calls it a collision-resistant cryptographic hash;
the hash itself is an external ethers primitive), the same resource at two
different timestamps yields two different references, because the decimal
timestamp suffix makes the hashed strings differ. -/
theorem taskRef_deterministic (strHash : String → Nat)
    (hinj : Function.Injective strHash) (url : String) (t1 t2 : Nat) :
    taskRefOf strHash url t1 = taskRefOf strHash url t1
    ∧ (t1 ≠ t2 → taskRefOf strHash url t1 ≠ taskRefOf strHash url t2) := by
  refine ⟨rfl, ?_⟩
  intro hne heq
  apply hne
  have h1 : url ++ jsNumToString t1 = url ++ jsNumToString t2 := hinj heq
  have h2 := congrArg String.data h1
  simp only [String.data_append] at h2
  have h3 := List.append_cancel_left h2
  exact jsNumToString_injective (String.ext h3)

/-- Concrete injective string digest used to discharge the collision-freedom
hypothesis of the C5 witness: an injective pairing-based code of the
character list. -/
def natListCode : List Nat → Nat
  | [] => 0
  | a :: t => Nat.pair a (natListCode t) + 1

theorem natListCode_injective : Function.Injective natListCode := by
  intro l1
  induction l1 with
  | nil =>
    intro l2 h
    cases l2 with
    | nil => rfl
    | cons b u => simp [natListCode] at h
  | cons a t ih =>
    intro l2 h
    cases l2 with
    | nil => simp [natListCode] at h
    | cons b u =>
      simp only [natListCode] at h
      have h2 : Nat.pair a (natListCode t) = Nat.pair b (natListCode u) := by omega
      have h3 := congrArg Nat.unpair h2
      rw [Nat.unpair_pair, Nat.unpair_pair] at h3
      have hab : a = b := congrArg Prod.fst h3
      have htu : t = u := ih (congrArg Prod.snd h3)
      rw [hab, htu]

theorem strCode_injective :
    Function.Injective (fun s : String => natListCode (s.data.map Char.toNat)) := by
  intro a b h
  have h2 := natListCode_injective h
  have h3 : a.data = b.data :=
    List.map_injective_iff.mpr
      (fun c d hh => Char.ofNat_toNat c ▸ Char.ofNat_toNat d ▸ congrArg Char.ofNat hh)
      h2
  exact String.ext h3

/-- Witness for C5: with a concrete injective digest, the same resource at
timestamps 1 and 2 yields distinct task references. -/
theorem taskRef_deterministic_witness :
    taskRefOf (fun s => natListCode (s.data.map Char.toNat)) "https://example.com" 1 ≠
      taskRefOf (fun s => natListCode (s.data.map Char.toNat)) "https://example.com" 2 :=
  (taskRef_deterministic (fun s => natListCode (s.data.map Char.toNat))
    strCode_injective "https://example.com" 1 2).2 (by decide)

end WebScraper
